import Mathlib

/-!
Verification of the energy-sensor logic of the Nature Remo E integration
(file sensor.py).  Python floats are modelled as exact rationals (Rat);
a Python value that float() cannot parse is modelled by PyVal.nonNumeric.
A state getter is embedded as a function into Except String (Option Rat):
an error value means an exception escapes the getter, ok none means the
getter returns Python None, ok (some q) means it returns the number q.
-/

/-- Value of an echonetlite property as delivered by the API.  float(v)
succeeds exactly on the num constructor; on nonNumeric it raises. -/
inductive PyVal where
  | num (q : Rat)
  | nonNumeric (s : String)
deriving DecidableEq, Repr

/-- Behaviour of Python float() on a property value: some q on success,
none when it would raise ValueError. -/
def pyFloat : PyVal → Option Rat
  | PyVal.num q => some q
  | PyVal.nonNumeric _ => none

/-- One entry of smart_meter.echonetlite_properties: an epc code and a value. -/
structure ELProperty where
  epc : Int
  val : PyVal
deriving DecidableEq, Repr

/-- Python dict lookup d.get(k): the value stored at key k, if present. -/
def dictGet (d : List (Int × Rat)) (k : Int) : Option Rat :=
  (d.find? (fun kv => kv.1 == k)).map (fun kv => kv.2)

/-- Python dict lookup with default, d.get(k, dflt). -/
def dictGetD (d : List (Int × Rat)) (k : Int) (dflt : Rat) : Rat :=
  (dictGet d k).getD dflt

/-- Python dict insertion d[k] = v: replaces the value in place when the key
is already present, otherwise appends the new binding. -/
def dictInsert (d : List (Int × Rat)) (k : Int) (v : Rat) : List (Int × Rat) :=
  if (d.find? (fun kv => kv.1 == k)).isSome then
    d.map (fun kv => if kv.1 == k then (k, v) else kv)
  else
    d ++ [(k, v)]

/-- The dict comprehension at the top of both energy-sensor state getters,
processed left to right with an accumulator:
props = \x7bint(p["epc"]): float(p["val"]) for p in echonetlite_properties\x7d.
The first value float() cannot parse raises ValueError, before the try block. -/
def buildPropsAux (acc : List (Int × Rat)) : List ELProperty → Except String (List (Int × Rat))
  | [] => Except.ok acc
  | p :: rest =>
    match pyFloat p.val with
    | none => Except.error "ValueError"
    | some q => buildPropsAux (dictInsert acc p.epc q) rest

/-- Dict-comprehension entry point, starting from the empty dict. -/
def buildProps (ps : List ELProperty) : Except String (List (Int × Rat)) :=
  buildPropsAux [] ps

/-- The unit_table literal of both energy sensors.  The Python float
literals 0.1, 0.01, 0.001, 0.0001 are modelled by the exact rationals
they denote. -/
def unit_table : List (Int × Rat) :=
  [(0, 1), (1, 1/10), (2, 1/100), (3, 1/1000), (4, 1/10000),
   (10, 10), (11, 100), (12, 1000)]

/-- Python int() applied to a float: truncation toward zero. -/
def pyInt (q : Rat) : Int :=
  if 0 ≤ q then q.floor else q.ceil

/-- Body of NatureRemoEnergySensor.state after the props dict is built:
value = props.get(224, 0); coefficient = props.get(211, 1);
unit_code = int(props.get(225, 0)); unit = unit_table.get(unit_code, 1);
energy = value * coefficient * unit.  Multiplication of floats is total,
so the try block always succeeds here. -/
def consumedFromProps (d : List (Int × Rat)) : Rat :=
  dictGetD d 224 0 * dictGetD d 211 1 * dictGetD unit_table (pyInt (dictGetD d 225 0)) 1

/-- NatureRemoEnergySensor.state: build the props dict (which may raise),
then compute the energy.  The except handler around the multiplication can
never fire because float multiplication does not raise, so after a
successful parse the getter always returns a number. -/
def consumedEnergyState (ps : List ELProperty) : Except String (Option Rat) :=
  match buildProps ps with
  | Except.error e => Except.error e
  | Except.ok d => Except.ok (some (consumedFromProps d))

/-- Body of the try block of NatureRemoReturnedEnergySensor.state.  The
branch guards test key membership, so the direct indexings props[211],
props[225], props[227] cannot raise; the only exception source inside the
try is unit_table[int(props[225])], whose KeyError is caught by the except
handler, which returns None (modelled by the none results).  The else
branch returns props.get(227), which is None when 227 is absent. -/
def returnedFromProps (d : List (Int × Rat)) : Option Rat :=
  if (dictGet d 211).isSome && (dictGet d 225).isSome && (dictGet d 227).isSome then
    match dictGet unit_table (pyInt (dictGetD d 225 0)) with
    | some u => some (dictGetD d 227 0 * dictGetD d 211 0 * u)
    | none => none
  else if (dictGet d 225).isSome && (dictGet d 227).isSome then
    match dictGet unit_table (pyInt (dictGetD d 225 0)) with
    | some u => some (dictGetD d 227 0 * u)
    | none => none
  else
    dictGet d 227

/-- NatureRemoReturnedEnergySensor.state: build the props dict (which may
raise, before the try block), then run the branching calculation. -/
def returnedEnergyState (ps : List ELProperty) : Except String (Option Rat) :=
  match buildProps ps with
  | Except.error e => Except.error e
  | Except.ok d => Except.ok (returnedFromProps d)

/-- NatureRemoE.state: next(value["val"] for value in echonetlite_properties
if value["epc"] == 231), with no default, so an empty generator raises
StopIteration.  The value is returned unparsed. -/
def natureRemoEState (ps : List ELProperty) : Except String PyVal :=
  match ps.find? (fun p => p.epc == 231) with
  | some p => Except.ok p.val
  | none => Except.error "StopIteration"

/-- Modelled from the spec: the availability predicate of the energy sensors
lives in the integration base module (the repository file defining
NatureRemoBase, not under src/).  The spec states that a register set has a
valid reading for value_code if and only if value_code is present as a key
in registers, and that this check must not raise. -/
def availableForRegister (d : List (Int × Rat)) (value_code : Int) : Bool :=
  (dictGet d value_code).isSome

/-- Modelled from the spec: the attributes ever assigned on a
NatureRemoReturnedEnergySensor instance.  Its own init assigns _name and the
base init (NatureRemoBase, defined in the repository base module, not under
src/) assigns the coordinator and appliance fields; per the spec design
notes, calc_mode is an undefined attribute, never assigned anywhere. -/
def returnedSensorAttrNames : List String :=
  ["_coordinator", "_appliance_id", "_name"]

/-- Python attribute access self.name on the instance: AttributeError when
the attribute was never assigned. -/
def pyGetattr (attrs : List String) (a : String) : Except String String :=
  if a ∈ attrs then Except.ok a else Except.error "AttributeError"

/-- NatureRemoReturnedEnergySensor.extra_state_attributes: returns the dict
\x7b"calc_mode": self.calc_mode\x7d, so it first evaluates self.calc_mode. -/
def extraStateAttributes : Except String (List (String × String)) :=
  match pyGetattr returnedSensorAttrNames "calc_mode" with
  | Except.error e => Except.error e
  | Except.ok v => Except.ok [("calc_mode", v)]

/-- C1: for every register set whose unit-scale code (EPC 225, default 0 when
absent, truncated to int) is a key of the unit table with value s, the
consumed-energy state getter returns exactly
registers.get(224, 0) * registers.get(211, 1) * s. -/
theorem consumed_state_exact_formula (ps : List ELProperty) (d : List (Int × Rat)) (s : Rat)
    (hd : buildProps ps = Except.ok d)
    (hs : dictGet unit_table (pyInt (dictGetD d 225 0)) = some s) :
    consumedEnergyState ps =
      Except.ok (some (dictGetD d 224 0 * dictGetD d 211 1 * s)) := by
  simp only [dictGetD] at hs
  simp [consumedEnergyState, hd, consumedFromProps, dictGetD, hs]

/-- C1 witness: the spec scenario 211=2, 224=150, 225=1 gives 150 * 2 * 0.1 = 30. -/
theorem consumed_state_exact_formula_witness :
    consumedEnergyState [⟨211, PyVal.num 2⟩, ⟨224, PyVal.num 150⟩, ⟨225, PyVal.num 1⟩] =
      Except.ok (some 30) := by
  have h := consumed_state_exact_formula
    [⟨211, PyVal.num 2⟩, ⟨224, PyVal.num 150⟩, ⟨225, PyVal.num 1⟩]
    [(211, 2), (224, 150), (225, 1)] (1/10) rfl rfl
  rw [h]
  norm_num [dictGetD, dictGet]

/-- C2: in the code, a register value that float() cannot parse raises in the
dict comprehension, before the try block of either energy-sensor state getter,
so the exception escapes to the caller instead of being caught and surfaced as
a null state.  Evaluation at the failing input, for both sensors. -/
theorem nonNumeric_value_escapes_state_getter :
    consumedEnergyState [⟨224, PyVal.nonNumeric "garbage"⟩] = Except.error "ValueError" ∧
    returnedEnergyState [⟨227, PyVal.nonNumeric "garbage"⟩] = Except.error "ValueError" :=
  ⟨rfl, rfl⟩

/-- C3 counterexample: with registers 211=2, 225=5 (a code outside the unit
table) and 227=80, the returned-energy conversion yields None, not
raw * coefficient * 1 = 160 as the claim states. -/
theorem returned_unknown_unit_code_yields_none :
    returnedEnergyState [⟨211, PyVal.num 2⟩, ⟨225, PyVal.num 5⟩, ⟨227, PyVal.num 80⟩] =
      Except.ok none ∧
    returnedEnergyState [⟨211, PyVal.num 2⟩, ⟨225, PyVal.num 5⟩, ⟨227, PyVal.num 80⟩] ≠
      Except.ok (some ((80 : Rat) * 2 * 1)) := by
  constructor
  · rfl
  · intro hcontra
    rw [show returnedEnergyState
        [⟨211, PyVal.num 2⟩, ⟨225, PyVal.num 5⟩, ⟨227, PyVal.num 80⟩] =
        Except.ok (none : Option Rat) from rfl] at hcontra
    simp at hcontra

/-- C3 amended: when EPC 225 is present but its truncated code is not a key of
the unit table, the consumed conversion defaults the multiplier to 1 and
returns raw * coefficient * 1, while the returned conversion (when EPC 227 is
present) hits a KeyError on unit_table, caught by its except handler, and
surfaces None. -/
theorem unknown_unit_code_fallback (ps : List ELProperty) (d : List (Int × Rat))
    (hd : buildProps ps = Except.ok d)
    (h225 : (dictGet d 225).isSome)
    (hu : dictGet unit_table (pyInt (dictGetD d 225 0)) = none) :
    consumedEnergyState ps =
      Except.ok (some (dictGetD d 224 0 * dictGetD d 211 1 * 1)) ∧
    ((dictGet d 227).isSome → returnedEnergyState ps = Except.ok none) := by
  constructor
  · simp only [dictGetD] at hu
    simp [consumedEnergyState, hd, consumedFromProps, dictGetD, hu]
  · intro h227
    simp only [dictGetD] at hu
    rcases h211 : dictGet d 211 with _ | c <;>
      simp [returnedEnergyState, hd, returnedFromProps, dictGetD, h225, h227, hu, h211]

/-- C3 amended witness: registers 225=5, 227=80, 224=3, 211=2: the consumed
state is 3 * 2 * 1 = 6 and the returned state is None. -/
theorem unknown_unit_code_fallback_witness :
    consumedEnergyState
      [⟨225, PyVal.num 5⟩, ⟨227, PyVal.num 80⟩, ⟨224, PyVal.num 3⟩, ⟨211, PyVal.num 2⟩] =
      Except.ok (some 6) ∧
    returnedEnergyState
      [⟨225, PyVal.num 5⟩, ⟨227, PyVal.num 80⟩, ⟨224, PyVal.num 3⟩, ⟨211, PyVal.num 2⟩] =
      Except.ok none := by
  have h := unknown_unit_code_fallback
    [⟨225, PyVal.num 5⟩, ⟨227, PyVal.num 80⟩, ⟨224, PyVal.num 3⟩, ⟨211, PyVal.num 2⟩]
    [(225, 5), (227, 80), (224, 3), (211, 2)] rfl (by decide) rfl
  refine ⟨?_, h.2 (by decide)⟩
  rw [h.1]
  norm_num [dictGetD, dictGet]

/-- C4 counterexample: on the empty register set (227 absent) the
returned-energy conversion surfaces None, not 0.0, refuting the claim that an
absent cumulative register always yields 0.0 and never null. -/
theorem returned_energy_none_when_register_absent :
    returnedEnergyState [] = Except.ok none ∧
    returnedEnergyState [] ≠ Except.ok (some (0 : Rat)) := by
  constructor
  · rfl
  · intro hcontra
    rw [show returnedEnergyState [] = Except.ok (none : Option Rat) from rfl] at hcontra
    simp at hcontra

/-- C4 amended: for the consumed conversion an absent 224 register defaults
raw to 0 and the state is 0.0, and an absent 211 register defaults the
coefficient to 1 so the state is raw * unit; for the returned conversion an
absent 227 register makes the state None, not 0.0. -/
theorem absent_register_defaults (ps : List ELProperty) (d : List (Int × Rat))
    (hd : buildProps ps = Except.ok d) :
    (dictGet d 224 = none → consumedEnergyState ps = Except.ok (some 0)) ∧
    (dictGet d 211 = none → consumedEnergyState ps =
      Except.ok (some (dictGetD d 224 0 *
        dictGetD unit_table (pyInt (dictGetD d 225 0)) 1))) ∧
    (dictGet d 227 = none → returnedEnergyState ps = Except.ok none) := by
  refine ⟨?_, ?_, ?_⟩
  · intro h224
    simp [consumedEnergyState, hd, consumedFromProps, dictGetD, h224]
  · intro h211
    simp [consumedEnergyState, hd, consumedFromProps, dictGetD, h211]
  · intro h227
    simp [returnedEnergyState, hd, returnedFromProps, h227]

/-- C4 amended witness: on the empty register set the consumed state is 0.0
and the returned state is None. -/
theorem absent_register_defaults_witness :
    consumedEnergyState [] = Except.ok (some 0) ∧
    returnedEnergyState [] = Except.ok none := by
  have h := absent_register_defaults [] [] rfl
  exact ⟨h.1 (by decide), h.2.2 (by decide)⟩

/-- C5: accessing extra_state_attributes on the returned-energy sensor
evaluates self.calc_mode, an attribute that is never assigned, so the getter
raises AttributeError instead of returning a mapping. -/
theorem extra_state_attributes_raises :
    extraStateAttributes = Except.error "AttributeError" := rfl

/-- C6: for value_code 224 or 227, the availability predicate is false exactly
when value_code is absent as a key of the register set; it is a total boolean
function of key presence only. -/
theorem availability_iff_key_absent (d : List (Int × Rat)) (value_code : Int)
    (h : value_code = 224 ∨ value_code = 227) :
    (availableForRegister d value_code = false ↔ dictGet d value_code = none) := by
  cases hx : dictGet d value_code <;> simp [availableForRegister, hx]

/-- C6 witness: on the empty register set the predicate for 224 is false and
the lookup is none. -/
theorem availability_iff_key_absent_witness :
    availableForRegister [] 224 = false ↔ dictGet [] 224 = none :=
  availability_iff_key_absent [] 224 (Or.inl rfl)

/-- C7: on the register set containing only 227=80, the returned-energy
conversion takes the raw-passthrough branch and the state is 80. -/
theorem returned_raw_passthrough_eighty :
    returnedEnergyState [⟨227, PyVal.num 80⟩] = Except.ok (some 80) := rfl

/-- C8: once the props dict is built (every value parsed as a float), the
consumed-energy getter always returns the product
props.get(224, 0) * props.get(211, 1) * unit_table.get(int(props.get(225, 0)), 1);
it never returns None, so the except handler is unreachable. -/
theorem consumed_handler_unreachable (ps : List ELProperty) (d : List (Int × Rat))
    (hd : buildProps ps = Except.ok d) :
    consumedEnergyState ps =
      Except.ok (some (dictGetD d 224 0 * dictGetD d 211 1 *
        dictGetD unit_table (pyInt (dictGetD d 225 0)) 1)) := by
  simp [consumedEnergyState, hd, consumedFromProps]

/-- C8 witness: evaluation on the register set 224=5. -/
theorem consumed_handler_unreachable_witness :
    consumedEnergyState [⟨224, PyVal.num 5⟩] =
      Except.ok (some (dictGetD [(224, 5)] 224 0 * dictGetD [(224, 5)] 211 1 *
        dictGetD unit_table (pyInt (dictGetD [(224, 5)] 225 0)) 1)) :=
  consumed_handler_unreachable [⟨224, PyVal.num 5⟩] [(224, 5)] rfl

/-- C9: when no echonetlite property has epc 231, the instantaneous-power
getter raises StopIteration (next with no default) rather than returning a
null state. -/
theorem power_state_raises_without_epc231 (ps : List ELProperty)
    (h : ∀ p ∈ ps, p.epc ≠ 231) :
    natureRemoEState ps = Except.error "StopIteration" := by
  have hf : ps.find? (fun p => p.epc == 231) = none := by
    rw [List.find?_eq_none]
    intro p hp
    simpa using h p hp
  simp [natureRemoEState, hf]

/-- C9 witness: a property list holding only epc 224 makes the getter raise. -/
theorem power_state_raises_without_epc231_witness :
    natureRemoEState [⟨224, PyVal.num 1⟩] = Except.error "StopIteration" :=
  power_state_raises_without_epc231 [⟨224, PyVal.num 1⟩] (by decide)

/-- C10: a register set with 227 and 211 present but 225 absent falls through
to the raw-passthrough branch of the returned-energy conversion and the state
is the raw 227 value unchanged, ignoring the coefficient in 211. -/
theorem returned_passthrough_ignores_coefficient (ps : List ELProperty)
    (d : List (Int × Rat)) (r : Rat)
    (hd : buildProps ps = Except.ok d)
    (h227 : dictGet d 227 = some r)
    (h211 : (dictGet d 211).isSome)
    (h225 : dictGet d 225 = none) :
    returnedEnergyState ps = Except.ok (some r) := by
  simp [returnedEnergyState, hd, returnedFromProps, h227, h225, h211]

/-- C10 witness: registers 227=80 and 211=2 give the state 80, not 160. -/
theorem returned_passthrough_ignores_coefficient_witness :
    returnedEnergyState [⟨227, PyVal.num 80⟩, ⟨211, PyVal.num 2⟩] = Except.ok (some 80) :=
  returned_passthrough_ignores_coefficient [⟨227, PyVal.num 80⟩, ⟨211, PyVal.num 2⟩]
    [(227, 80), (211, 2)] 80 rfl rfl (by decide) (by decide)
